import Mathlib

/-!
# Verification of the email campaign service

A shallow embedding of `src/backend/src/email/services/email.service.ts`
(the plain/protected CSV upload handlers, message hydration and the
campaign dispatch path), with external collaborators that are not part of
the sources (the template client, the header check of the upload service,
and the ORM transaction contract) modelled from the specification.
-/

namespace EmailService

/-- A CSV row / parameter object: an association list from column name to
value, mirroring the JSON object `CSVParams`. -/
abbrev CSVParams := List (String × String)

/-- JavaScript property read `entry[k]`: the value of the first binding of
key `k`, `none` standing for `undefined`. -/
def lookupParam (entry : CSVParams) (k : String) : Option String :=
  (entry.find? (fun p => decide (p.1 = k))).map (·.2)

/-- `Object.keys(entry)`: the column names of a row. -/
def paramKeys (entry : CSVParams) : List String := entry.map (·.1)

/-- Channel type of a campaign (`ChannelType` of `@core/constants`). -/
inductive ChannelType where
  | Email
  | SMS
deriving DecidableEq, Repr

/-- A `Campaign` row: id, owner, channel type and credential binding. -/
structure Campaign where
  id : Nat
  userId : Nat
  channelType : ChannelType
  credName : Option String
deriving DecidableEq, Repr

/-- An `EmailMessage` row: one message record per (campaign, recipient)
pair, holding the recipient address and its parameter set.  The recipient
is `Option String` because the code stores `entry['recipient']`, which is
`undefined` when the column is absent. -/
structure EmailMessage where
  campaignId : Nat
  recipient : Option String
  params : CSVParams
deriving DecidableEq, Repr

/-- A `ProtectedMessage` row: encrypted payload plus password-hash
reference for a protected campaign. -/
structure ProtectedMessage where
  campaignId : Nat
  recipient : Option String
  payload : String
  passwordHash : String
deriving DecidableEq, Repr

/-- Modelled from the spec: the template client of `EmailTemplateService`
is not under `src/`; per the spec it substitutes named placeholders in
subject/body text with per-recipient parameter values, so template text is
embedded as a sequence of literal and placeholder parts. -/
inductive TemplatePart where
  | lit (s : String)
  | ph (name : String)
deriving DecidableEq, Repr

/-- Template text: a sequence of literal and placeholder parts. -/
abbrev TemplateText := List TemplatePart

/-- An `EmailTemplate` row: subject, body, optional reply-to and the
declared parameter keys (`template.params`). -/
structure EmailTemplate where
  campaignId : Nat
  subject : TemplateText
  body : TemplateText
  replyTo : Option String
  params : List String
deriving DecidableEq, Repr

/-- The database tables the service touches. -/
structure DB where
  campaigns : List Campaign
  emailMessages : List EmailMessage
  protectedMessages : List ProtectedMessage
  emailTemplates : List EmailTemplate
deriving DecidableEq, Repr

/-- Errors raised by the service (JS `throw` sites and the error taxonomy
of the spec). -/
inductive SvcError where
  | headerMismatch
  | hydrationFailure
  | persistenceFailure
  | emptyData
deriving DecidableEq, Repr

/-- Render one template part against a parameter object (a missing
parameter renders as the empty string). -/
def renderPart (params : CSVParams) : TemplatePart → String
  | .lit s => s
  | .ph n => (lookupParam params n).getD ""

/-- Modelled from the spec: `EmailTemplateService.client.template`
substitutes every placeholder occurrence with the corresponding parameter
value. -/
def renderTemplate (t : TemplateText) (params : CSVParams) : String :=
  String.join (t.map (renderPart params))

/-- The placeholder names referenced by a piece of template text. -/
def placeholdersOf (t : TemplateText) : List String :=
  t.filterMap (fun p => match p with | .ph n => some n | .lit _ => none)

/-- Modelled from the spec: `UploadService.checkTemplateKeysMatch` is not
under `src/`; per the spec it fails with `HeaderMismatch` when the
uploaded CSV's column set (taken from the first row as a representative
sample) does not cover every required key.  On empty data the JS
`Object.keys(data[0])` throws, embedded as `emptyData`. -/
def checkTemplateKeysMatch (data : List CSVParams) (requiredKeys : List String) :
    Except SvcError Unit :=
  match data with
  | [] => .error .emptyData
  | entry :: _ =>
    if requiredKeys.all (fun k => decide (k ∈ paramKeys entry)) then .ok ()
    else .error .headerMismatch

/-- Modelled from the spec: `EmailTemplateService.testHydration` is not
under `src/`; per the spec it fails when the template references a
placeholder absent from the sample parameters. -/
def testHydration (samples : List CSVParams) (body subject : TemplateText) :
    Except SvcError Unit :=
  if samples.all (fun sample =>
      (placeholdersOf body ++ placeholdersOf subject).all
        (fun k => decide (k ∈ paramKeys sample))) then .ok ()
  else .error .hydrationFailure

/-! ## Transaction model

Modelled from the spec: the ORM transaction (an external collaborator)
provides an all-or-nothing contract — writes issued under the transaction
become visible only on commit, and a rollback discards them all.  A
transaction carries the tentative database state and whether rollback has
been requested. -/

/-- The state of one open transaction. -/
structure TxState where
  db : DB
  rolledBack : Bool
deriving DecidableEq, Repr

/-- The outcome of one chunk/preview handler invocation: the transaction
state afterwards and the error it threw, if any. -/
structure HandlerResult where
  tx : TxState
  err : Option SvcError
deriving DecidableEq, Repr

/-- `data.map(entry => ({ campaignId, recipient: entry['recipient'],
params: entry }))` — the message record built for one CSV row. -/
def mkEmailMessageRecord (campaignId : Nat) (entry : CSVParams) : EmailMessage :=
  { campaignId := campaignId
    recipient := lookupParam entry "recipient"
    params := entry }

/-- `EmailMessage.destroy({ where: { campaignId }, transaction })` applied
to the tentative state. -/
def destroyEmailMessages (campaignId : Nat) (db : DB) : DB :=
  { db with emailMessages :=
      db.emailMessages.filter (fun m => decide (¬ m.campaignId = campaignId)) }

/-- `ProtectedMessage.destroy({ where: { campaignId }, transaction })`
applied to the tentative state. -/
def destroyProtectedMessages (campaignId : Nat) (db : DB) : DB :=
  { db with protectedMessages :=
      db.protectedMessages.filter (fun m => decide (¬ m.campaignId = campaignId)) }

/-- `uploadCompleteOnPreview`: validates the CSV headers against the
template's declared keys, trial-hydrates the template with the first data
row, then deletes the campaign's existing message rows; a failing delete
rolls the transaction back and rethrows (`destroyOk` injects the
persistence outcome of the delete). -/
def uploadCompleteOnPreview (template : EmailTemplate) (campaignId : Nat)
    (destroyOk : Bool) (data : List CSVParams) (tx : TxState) : HandlerResult :=
  match checkTemplateKeysMatch data template.params with
  | .error e => ⟨tx, some e⟩
  | .ok () =>
    match testHydration [data.head?.getD []] template.body template.subject with
    | .error e => ⟨tx, some e⟩
    | .ok () =>
      if destroyOk then
        ⟨{ tx with db := destroyEmailMessages campaignId tx.db }, none⟩
      else
        ⟨{ tx with rolledBack := true }, some .persistenceFailure⟩

/-- `uploadCompleteOnChunk`: maps each CSV row to a message record and
bulk-inserts the records under the transaction; a failing insert rolls the
transaction back and rethrows (`bulkCreateOk` injects the persistence
outcome of the insert). -/
def uploadCompleteOnChunk (campaignId : Nat) (bulkCreateOk : Bool)
    (data : List CSVParams) (tx : TxState) : HandlerResult :=
  if bulkCreateOk then
    ⟨{ tx with db := { tx.db with emailMessages :=
        tx.db.emailMessages ++ data.map (mkEmailMessageRecord campaignId) } },
      none⟩
  else
    ⟨{ tx with rolledBack := true }, some .persistenceFailure⟩

/-- The fixed header set required of a protected-campaign CSV
(`PROTECTED_CSV_HEADERS`). -/
def PROTECTED_CSV_HEADERS : List String :=
  ["recipient", "payload", "passwordhash", "id"]

/-- `uploadProtectedCompleteOnPreview`: validates the CSV headers against
the fixed protected header set, trial-hydrates with the first data row,
then deletes the campaign's existing protected rows; a failing delete
rolls the transaction back and rethrows. -/
def uploadProtectedCompleteOnPreview (template : EmailTemplate)
    (campaignId : Nat) (destroyOk : Bool) (data : List CSVParams)
    (tx : TxState) : HandlerResult :=
  match checkTemplateKeysMatch data PROTECTED_CSV_HEADERS with
  | .error e => ⟨tx, some e⟩
  | .ok () =>
    match testHydration [data.head?.getD []] template.body template.subject with
    | .error e => ⟨tx, some e⟩
    | .ok () =>
      if destroyOk then
        ⟨{ tx with db := destroyProtectedMessages campaignId tx.db }, none⟩
      else
        ⟨{ tx with rolledBack := true }, some .persistenceFailure⟩

/-- `uploadProtectedCompleteOnChunk`: derives protected rows and message
records via the external `ProtectedService.storeProtectedMessages`
(modelled from the spec as an injected outcome `store`), inserts them
under the transaction, and on any failure rolls back and rethrows. -/
def uploadProtectedCompleteOnChunk (_campaignId : Nat)
    (store : Except SvcError (List ProtectedMessage × List EmailMessage))
    (bulkCreateOk : Bool) (tx : TxState) : HandlerResult :=
  match store with
  | .error _ => ⟨{ tx with rolledBack := true }, some .persistenceFailure⟩
  | .ok (protectedRows, messages) =>
    if bulkCreateOk then
      ⟨{ tx with db := { tx.db with
          protectedMessages := tx.db.protectedMessages ++ protectedRows,
          emailMessages := tx.db.emailMessages ++ messages } }, none⟩
    else
      ⟨{ tx with rolledBack := true }, some .persistenceFailure⟩

/-- Runs a sequence of handlers on one transaction, stopping at the first
thrown error. -/
def runSeq : List (TxState → HandlerResult) → TxState → HandlerResult
  | [], tx => ⟨tx, none⟩
  | h :: hs, tx =>
    match h tx with
    | ⟨tx', none⟩ => runSeq hs tx'
    | ⟨tx', some e⟩ => ⟨tx', some e⟩

/-- Modelled from the spec: one logical transaction spans the preview
phase and every chunk invocation; on success the tentative state commits,
and on any thrown error the transaction is rolled back so the original
database stays visible.  Returns the visible database and the surfaced
error, if any. -/
def runUpload (handlers : List (TxState → HandlerResult)) (db : DB) :
    DB × Option SvcError :=
  match runSeq handlers ⟨db, false⟩ with
  | ⟨tx, none⟩ => if tx.rolledBack then (db, none) else (tx.db, none)
  | ⟨_, some e⟩ => (db, some e)

/-- A full plain-campaign upload: the preview handler followed by one
chunk handler per CSV chunk, each chunk paired with its injected
persistence outcome. -/
def plainUploadRun (template : EmailTemplate) (campaignId : Nat)
    (destroyOk : Bool) (previewData : List CSVParams)
    (chunks : List (Bool × List CSVParams)) (db : DB) : DB × Option SvcError :=
  runUpload
    (uploadCompleteOnPreview template campaignId destroyOk previewData ::
      chunks.map (fun c => uploadCompleteOnChunk campaignId c.1 c.2))
    db

/-! ## Dispatch path -/

/-- `getParams`: `EmailMessage.findOne({ where: { campaignId } })` — the
parameters of the first stored message row of the campaign, or nothing. -/
def getParams (db : DB) (campaignId : Nat) : Option CSVParams :=
  (db.emailMessages.find? (fun m => decide (m.campaignId = campaignId))).map
    (·.params)

/-- Modelled from the spec: `EmailTemplateService.getFilledTemplate` is
not under `src/`; per the spec it fetches the stored template of the
campaign, yielding nothing when none exists. -/
def getFilledTemplate (db : DB) (campaignId : Nat) : Option EmailTemplate :=
  db.emailTemplates.find? (fun t => decide (t.campaignId = campaignId))

/-- JavaScript `x || null` on an optional string: the empty string is
falsy and collapses to `null`. -/
def jsOrNull : Option String → Option String
  | none => none
  | some s => if s = "" then none else some s

/-- The hydrated message produced by `getHydratedMessage`. -/
structure HydratedMessage where
  body : String
  subject : String
  replyTo : Option String
deriving DecidableEq, Repr

/-- `getHydratedMessage`: fetches the template and the parameters, yields
nothing when either is absent, and otherwise the hydrated subject/body
with `replyTo := template.replyTo || null`. -/
def getHydratedMessage (db : DB) (campaignId : Nat) : Option HydratedMessage :=
  match getFilledTemplate db campaignId, getParams db campaignId with
  | some template, some params =>
    some { body := renderTemplate template.body params
           subject := renderTemplate template.subject params
           replyTo := jsOrNull template.replyTo }
  | _, _ => none

/-- The `MailToSend` document handed to the mail client. -/
structure MailToSend where
  recipients : List String
  body : String
  subject : String
  replyTo : Option String
deriving DecidableEq, Repr

/-- `getCampaignMessage`: formats the hydrated message for the given
recipient (the spread `...(replyTo ? { replyTo } : {})` keeps the reply-to
only when truthy, which `jsOrNull` already guarantees). -/
def getCampaignMessage (db : DB) (campaignId : Nat) (recipient : String) :
    Option MailToSend :=
  match getHydratedMessage db campaignId with
  | some m =>
    some { recipients := [recipient], body := m.body, subject := m.subject,
           replyTo := m.replyTo }
  | none => none

/-- How the external mail client behaves on one `sendMail` call: it may
throw synchronously, return a promise that resolves (with a message id,
an empty string, or `undefined` = `none`), or return a promise that
rejects. -/
inductive MailClientBehavior where
  | syncThrow (e : String)
  | resolves (v : Option String)
  | rejects (e : String)
deriving DecidableEq, Repr

/-- The settled outcome of an async JS function: its promise resolves with
a value or rejects with an error. -/
inductive PromiseResult (α : Type) where
  | resolved (v : α)
  | rejected (e : String)
deriving DecidableEq, Repr

/-- JavaScript truthiness test `!v` for a `string | void` value:
`undefined` and the empty string are falsy. -/
def jsFalsy : Option String → Bool
  | none => true
  | some s => decide (s = "")

/-- `sendEmail`: `try { return mailClient.sendMail(mail) } catch { log;
return }`.  The `try` block returns the promise without awaiting it, so
the `catch` fires only on a synchronous throw; a rejected promise passes
through and rejects `sendEmail`'s own promise. -/
def sendEmail (behavior : MailClientBehavior) : PromiseResult (Option String) :=
  match behavior with
  | .syncThrow _ => .resolved none
  | .resolves v => .resolved v
  | .rejects e => .rejected e

/-- How one `sendCampaignMessage` call settles. -/
inductive DispatchResult where
  | ok
  | noMessageToSend
  | sendFailed (recipient : String)
  | transportException (e : String)
deriving DecidableEq, Repr

/-- `sendCampaignMessage`: composes the campaign message for the
recipient, throws `No message to send` when composition yields nothing,
otherwise awaits `sendEmail` (a rejection there propagates raw) and
throws `Could not send test email to ...` when the awaited value is
falsy.  Also returns the list of mail documents handed to the transport,
to make the number of transport calls observable. -/
def sendCampaignMessage (db : DB) (behavior : MailClientBehavior)
    (campaignId : Nat) (recipient : String) :
    DispatchResult × List MailToSend :=
  match getCampaignMessage db campaignId recipient with
  | none => (.noMessageToSend, [])
  | some mail =>
    match sendEmail behavior with
    | .rejected e => (.transportException e, [mail])
    | .resolved v =>
      if jsFalsy v then (.sendFailed recipient, [mail])
      else (.ok, [mail])

/-- `findCampaign`: `Campaign.findOne({ where: { id, userId, type:
ChannelType.Email } })`. -/
def findCampaign (db : DB) (campaignId userId : Nat) : Option Campaign :=
  db.campaigns.find? (fun c =>
    decide (c.id = campaignId ∧ c.userId = userId ∧
      c.channelType = ChannelType.Email))

/-- `setCampaignCredential`: `Campaign.update({ credName: 'EMAIL_DEFAULT'
}, { where: { id: campaignId } })` — returns the affected row count and
the updated database. -/
def setCampaignCredential (db : DB) (campaignId : Nat) : Nat × DB :=
  (db.campaigns.countP (fun c => decide (c.id = campaignId)),
    { db with campaigns := db.campaigns.map (fun c =>
        if c.id = campaignId then { c with credName := some "EMAIL_DEFAULT" }
        else c) })

/-! ## Concrete instances used by witnesses and counterexamples -/

/-- A template for campaign 1: subject `S`, body `Hi {{name}}`, declared
parameter key `name`. -/
def tmpl0 : EmailTemplate :=
  { campaignId := 1, subject := [.lit "S"], body := [.lit "Hi ", .ph "name"]
    replyTo := none, params := ["name"] }

/-- A stored message row for recipient `a@x.com` of campaign 1. -/
def msgA : EmailMessage :=
  { campaignId := 1, recipient := some "a@x.com"
    params := [("recipient", "a@x.com"), ("name", "Alex")] }

/-- A stored message row for recipient `b@x.com` of campaign 1. -/
def msgB : EmailMessage :=
  { campaignId := 1, recipient := some "b@x.com"
    params := [("recipient", "b@x.com"), ("name", "Bo")] }

/-- A database with one email campaign, two stored message rows and the
template `tmpl0`. -/
def db0 : DB :=
  { campaigns := [{ id := 1, userId := 3, channelType := .Email, credName := none }]
    emailMessages := [msgA, msgB]
    protectedMessages := []
    emailTemplates := [tmpl0] }

/-- A transaction over a database holding one protected row and one
message row of campaign 1. -/
def tx0 : TxState :=
  { db := { campaigns := []
            emailMessages := [msgA]
            protectedMessages := [{ campaignId := 1, recipient := some "old"
                                    payload := "pl", passwordHash := "ph" }]
            emailTemplates := [] }
    rolledBack := false }

/-- A protected-campaign template with no placeholders, so that trial
hydration always passes. -/
def tmplP : EmailTemplate :=
  { campaignId := 1, subject := [.lit "S"], body := [.lit "B"]
    replyTo := none, params := [] }

/-- A protected-campaign CSV row carrying the four required columns plus
an additional `extra` column. -/
def entryExtra : CSVParams :=
  [("recipient", "a@x.com"), ("payload", "p"), ("passwordhash", "h"),
   ("id", "1"), ("extra", "x")]

/-- The parameter set stored for one specific recipient of a campaign;
this definition follows the spec's words ("the stored per-recipient
parameters for `campaignId`") for comparison against `getParams`, which
the code keys by campaign alone. -/
def paramsForRecipient (db : DB) (campaignId : Nat) (recipient : String) :
    Option CSVParams :=
  (db.emailMessages.find? (fun m =>
      decide (m.campaignId = campaignId ∧ m.recipient = some recipient))).map
    (·.params)

/-- The empty database. -/
def dbEmpty : DB :=
  { campaigns := [], emailMessages := [], protectedMessages := []
    emailTemplates := [] }

/-- The mail composed from `db0`'s campaign 1 for recipient `a@x.com`. -/
def mailA : MailToSend :=
  { recipients := ["a@x.com"], body := "Hi Alex", subject := "S"
    replyTo := none }

/-- Did both validation steps of a preview handler pass, for the given
required header keys? -/
def validationOk (requiredKeys : List String) (template : EmailTemplate)
    (data : List CSVParams) : Bool :=
  (checkTemplateKeysMatch data requiredKeys matches Except.ok _) &&
  (testHydration [data.head?.getD []] template.body template.subject
    matches Except.ok _)

end EmailService

namespace EmailService

/-! ## Theorems -/

/-- C1: the plain chunk handler, when its bulk insert succeeds, appends
exactly one message record per CSV row, in row order, with that row's
`recipient` column as recipient and the entire row as parameter set; no
deduplication happens, so the inserted count always equals the row
count. -/
theorem c1_chunk_inserts_one_record_per_row (campaignId : Nat)
    (data : List CSVParams) (tx : TxState) :
    (uploadCompleteOnChunk campaignId true data tx).err = none ∧
    (uploadCompleteOnChunk campaignId true data tx).tx.db.emailMessages =
      tx.db.emailMessages ++ data.map (mkEmailMessageRecord campaignId) ∧
    (uploadCompleteOnChunk campaignId true data tx).tx.db.emailMessages.length =
      tx.db.emailMessages.length + data.length ∧
    ∀ i : Nat,
      (uploadCompleteOnChunk campaignId true data
          tx).tx.db.emailMessages[tx.db.emailMessages.length + i]? =
        (data[i]?).map (fun entry =>
          { campaignId := campaignId
            recipient := lookupParam entry "recipient"
            params := entry }) := by
  refine ⟨rfl, rfl, ?_, ?_⟩
  · simp [uploadCompleteOnChunk]
  · intro i
    simp only [uploadCompleteOnChunk, if_pos, List.getElem?_append_right,
      List.length_append, Nat.le_add_right, Nat.add_sub_cancel_left,
      List.getElem?_map]
    rfl

/-- A preview handler whose delete is doomed to fail always throws:
whichever stage stops it first, its result carries an error. -/
theorem preview_err_isSome_of_destroy_fails (template : EmailTemplate)
    (campaignId : Nat) (data : List CSVParams) (tx : TxState) :
    (uploadCompleteOnPreview template campaignId false data
      tx).err.isSome = true := by
  cases hc : checkTemplateKeysMatch data template.params with
  | error e => simp [uploadCompleteOnPreview, hc]
  | ok u =>
    cases u
    cases ht : testHydration [data.head?.getD []] template.body template.subject with
    | error e => simp [uploadCompleteOnPreview, hc, ht]
    | ok v =>
      cases v
      simp [uploadCompleteOnPreview, hc, ht]

/-- Running the chunk handlers of a plain upload throws as soon as one
chunk's bulk insert fails. -/
theorem runSeq_chunks_err_of_fail (campaignId : Nat) :
    ∀ (chunks : List (Bool × List CSVParams)) (tx : TxState),
      (∃ c ∈ chunks, c.1 = false) →
      (runSeq (chunks.map (fun c => uploadCompleteOnChunk campaignId c.1 c.2))
        tx).err.isSome = true := by
  intro chunks
  induction chunks with
  | nil =>
    intro tx h
    rcases h with ⟨c, hc, _⟩
    cases hc
  | cons c cs ih =>
    intro tx h
    rcases c with ⟨ok, d⟩
    cases ok with
    | false => simp [runSeq, uploadCompleteOnChunk]
    | true =>
      rcases h with ⟨c', hc', hfalse⟩
      rcases List.mem_cons.mp hc' with rfl | hmem
      · cases hfalse
      · simp only [List.map_cons, runSeq, uploadCompleteOnChunk, if_pos]
        exact ih _ ⟨c', hmem, hfalse⟩

/-- A plain upload with a doomed persistence operation surfaces an error
and leaves the original database visible. -/
theorem plainUploadRun_fail (template : EmailTemplate) (campaignId : Nat)
    (destroyOk : Bool) (previewData : List CSVParams)
    (chunks : List (Bool × List CSVParams)) (db : DB)
    (hfail : destroyOk = false ∨ ∃ c ∈ chunks, c.1 = false) :
    ∃ e, plainUploadRun template campaignId destroyOk previewData chunks db =
      (db, some e) := by
  unfold plainUploadRun runUpload
  cases hp : uploadCompleteOnPreview template campaignId destroyOk previewData
      ⟨db, false⟩ with
  | mk ptx perr =>
    cases perr with
    | some e =>
      refine ⟨e, ?_⟩
      simp [runSeq, hp]
    | none =>
      have hd : destroyOk = true := by
        cases hdo : destroyOk with
        | false =>
          have h1 := preview_err_isSome_of_destroy_fails template campaignId
            previewData ⟨db, false⟩
          rw [hdo] at hp
          rw [hp] at h1
          simp at h1
        | true => rfl
      subst hd
      have hchunk : ∃ c ∈ chunks, c.1 = false := by
        rcases hfail with h | h
        · simp at h
        · exact h
      have h2 := runSeq_chunks_err_of_fail campaignId chunks ptx hchunk
      cases hr2 : runSeq
          (chunks.map (fun c => uploadCompleteOnChunk campaignId c.1 c.2))
          ptx with
      | mk tx2 err2 =>
        rw [hr2] at h2
        cases err2 with
        | none => simp at h2
        | some e =>
          refine ⟨e, ?_⟩
          simp [runSeq, hp, hr2]

/-- C2: if any persistence operation of a plain upload fails (the preview
delete or any chunk's bulk insert), the run surfaces an error and the
visible database equals the pre-upload database, so the campaign's
message-row set is exactly its pre-upload state. -/
theorem c2_persistence_failure_all_or_nothing (template : EmailTemplate)
    (campaignId : Nat) (destroyOk : Bool) (previewData : List CSVParams)
    (chunks : List (Bool × List CSVParams)) (db : DB)
    (hfail : destroyOk = false ∨ ∃ c ∈ chunks, c.1 = false) :
    (plainUploadRun template campaignId destroyOk previewData chunks
        db).2.isSome = true ∧
    (plainUploadRun template campaignId destroyOk previewData chunks db).1 =
      db ∧
    (plainUploadRun template campaignId destroyOk previewData chunks
          db).1.emailMessages.filter
        (fun m => decide (m.campaignId = campaignId)) =
      db.emailMessages.filter (fun m => decide (m.campaignId = campaignId)) := by
  obtain ⟨e, he⟩ := plainUploadRun_fail template campaignId destroyOk
    previewData chunks db hfail
  rw [he]
  exact ⟨rfl, rfl, rfl⟩

/-- C2 witness: a single-chunk upload whose bulk insert fails leaves
`db0` untouched and reports the failure. -/
theorem c2_witness :
    (plainUploadRun tmpl0 1 true [msgA.params] [(false, [msgA.params])]
        db0).2.isSome = true ∧
    (plainUploadRun tmpl0 1 true [msgA.params] [(false, [msgA.params])]
        db0).1 = db0 ∧
    (plainUploadRun tmpl0 1 true [msgA.params] [(false, [msgA.params])]
          db0).1.emailMessages.filter (fun m => decide (m.campaignId = 1)) =
      db0.emailMessages.filter (fun m => decide (m.campaignId = 1)) :=
  c2_persistence_failure_all_or_nothing tmpl0 1 true [msgA.params]
    [(false, [msgA.params])] db0
    (Or.inr ⟨(false, [msgA.params]), by simp, rfl⟩)

/-- C3: in both preview handlers, header validation and trial hydration
run before the delete: whenever either validation step fails, the handler
throws with the transaction state untouched — no row of the campaign is
deleted. -/
theorem c3_validation_failure_prevents_delete (template : EmailTemplate)
    (campaignId : Nat) (destroyOk : Bool) (data : List CSVParams)
    (tx : TxState) :
    (validationOk template.params template data = false →
      (uploadCompleteOnPreview template campaignId destroyOk data tx).tx =
        tx ∧
      (uploadCompleteOnPreview template campaignId destroyOk data
        tx).err.isSome = true) ∧
    (validationOk PROTECTED_CSV_HEADERS template data = false →
      (uploadProtectedCompleteOnPreview template campaignId destroyOk data
        tx).tx = tx ∧
      (uploadProtectedCompleteOnPreview template campaignId destroyOk data
        tx).err.isSome = true) := by
  constructor
  · intro h
    cases hc : checkTemplateKeysMatch data template.params with
    | error e => simp [uploadCompleteOnPreview, hc]
    | ok u =>
      cases u
      cases ht : testHydration [data.head?.getD []] template.body
          template.subject with
      | error e => simp [uploadCompleteOnPreview, hc, ht]
      | ok v =>
        cases v
        simp [validationOk, hc, ht] at h
  · intro h
    cases hc : checkTemplateKeysMatch data PROTECTED_CSV_HEADERS with
    | error e => simp [uploadProtectedCompleteOnPreview, hc]
    | ok u =>
      cases u
      cases ht : testHydration [data.head?.getD []] template.body
          template.subject with
      | error e => simp [uploadProtectedCompleteOnPreview, hc, ht]
      | ok v =>
        cases v
        simp [validationOk, hc, ht] at h

/-- C3 witness: a CSV whose only row lacks both the template key and the
protected columns is rejected by both preview handlers with the
transaction untouched. -/
theorem c3_witness :
    (uploadCompleteOnPreview tmpl0 1 true [[("foo", "1")]] tx0).tx = tx0 ∧
    (uploadCompleteOnPreview tmpl0 1 true [[("foo", "1")]]
      tx0).err.isSome = true ∧
    (uploadProtectedCompleteOnPreview tmpl0 1 true [[("foo", "1")]]
      tx0).tx = tx0 ∧
    (uploadProtectedCompleteOnPreview tmpl0 1 true [[("foo", "1")]]
      tx0).err.isSome = true := by
  obtain ⟨h1, h2⟩ :=
    c3_validation_failure_prevents_delete tmpl0 1 true [[("foo", "1")]] tx0
  obtain ⟨a, b⟩ := h1 (by decide)
  obtain ⟨c, d⟩ := h2 (by decide)
  exact ⟨a, b, c, d⟩

/-- C9: `setCampaignCredential` rewrites the credential binding of every
campaign whose id matches to the fixed identifier `EMAIL_DEFAULT`,
regardless of its previous binding, leaves every other field of those
campaigns and every non-matching campaign unchanged, and touches no other
table. -/
theorem c9_set_credential_unconditional_frame (db : DB) (campaignId : Nat) :
    (setCampaignCredential db campaignId).2.campaigns.length =
      db.campaigns.length ∧
    (∀ i : Nat,
      (setCampaignCredential db campaignId).2.campaigns[i]? =
        (db.campaigns[i]?).map (fun c =>
          if c.id = campaignId then { c with credName := some "EMAIL_DEFAULT" }
          else c)) ∧
    (∀ i : Nat,
      ((setCampaignCredential db campaignId).2.campaigns[i]?).map
          (fun c => (c.id, c.userId, c.channelType)) =
        (db.campaigns[i]?).map (fun c => (c.id, c.userId, c.channelType))) ∧
    (setCampaignCredential db campaignId).2.emailMessages =
      db.emailMessages ∧
    (setCampaignCredential db campaignId).2.protectedMessages =
      db.protectedMessages ∧
    (setCampaignCredential db campaignId).2.emailTemplates =
      db.emailTemplates := by
  refine ⟨by simp [setCampaignCredential], ?_, ?_, rfl, rfl, rfl⟩
  · intro i
    simp [setCampaignCredential]
  · intro i
    simp only [setCampaignCredential, List.getElem?_map, Option.map_map]
    cases db.campaigns[i]? with
    | none => rfl
    | some c =>
      by_cases h : c.id = campaignId <;> simp [h]

/-- C10: the `catch` of `sendEmail` fires only on a synchronous throw of
the mail client; a transport call that returns a rejected promise is not
caught (the `try` block returns the promise without awaiting it), so the
raw rejection propagates through `sendCampaignMessage` instead of
surfacing as the send-failed error. -/
theorem c10_transport_rejection_propagates :
    sendEmail (.rejects "boom") = .rejected "boom" ∧
    sendEmail (.syncThrow "boom") = .resolved none ∧
    (sendCampaignMessage db0 (.rejects "boom") 1 "a@x.com").1 =
      .transportException "boom" ∧
    (sendCampaignMessage db0 (.rejects "boom") 1 "a@x.com").1 ≠
      .sendFailed "a@x.com" := by
  refine ⟨rfl, rfl, ?_, ?_⟩ <;> decide

/-- C4: when composition yields nothing, dispatch fails with the
no-message error and hands nothing to the transport; when it yields a
mail, the transport is called exactly once with that mail, and the
send-failed error is raised exactly when the transport resolves with a
falsy value (or throws synchronously, which the catch converts to one). -/
theorem c4_dispatch_exactly_once (db : DB) (behavior : MailClientBehavior)
    (campaignId : Nat) (recipient : String) :
    (getCampaignMessage db campaignId recipient = none →
      sendCampaignMessage db behavior campaignId recipient =
        (.noMessageToSend, [])) ∧
    (∀ mail, getCampaignMessage db campaignId recipient = some mail →
      (sendCampaignMessage db behavior campaignId recipient).2 = [mail] ∧
      ((sendCampaignMessage db behavior campaignId recipient).1 =
          .sendFailed recipient ↔
        (∃ v, behavior = .resolves v ∧ jsFalsy v = true) ∨
        (∃ e, behavior = .syncThrow e))) := by
  constructor
  · intro h
    simp [sendCampaignMessage, h]
  · intro mail h
    cases behavior with
    | syncThrow e =>
      refine ⟨by simp [sendCampaignMessage, h, sendEmail, jsFalsy], ?_⟩
      simp [sendCampaignMessage, h, sendEmail, jsFalsy]
    | resolves v =>
      refine ⟨?_, ?_⟩ <;>
        cases hf : jsFalsy v <;>
          simp [sendCampaignMessage, h, sendEmail, hf]
    | rejects e =>
      refine ⟨by simp [sendCampaignMessage, h, sendEmail], ?_⟩
      simp [sendCampaignMessage, h, sendEmail]

/-- C4 witness: on the empty database composition yields nothing, so
dispatch fails with the no-message error and no transport call; on `db0`
a transport resolving `undefined` yields the send-failed error after
exactly one call. -/
theorem c4_witness :
    sendCampaignMessage dbEmpty (.resolves (some "id")) 1 "r" =
      (.noMessageToSend, []) ∧
    (sendCampaignMessage db0 (.resolves none) 1 "a@x.com").2.length = 1 ∧
    (sendCampaignMessage db0 (.resolves none) 1 "a@x.com").1 =
      .sendFailed "a@x.com" := by
  refine ⟨(c4_dispatch_exactly_once dbEmpty (.resolves (some "id")) 1
    "r").1 (by decide), ?_, ?_⟩
  · obtain ⟨h2, -⟩ := (c4_dispatch_exactly_once db0 (.resolves none) 1
      "a@x.com").2 mailA (by decide)
    rw [h2]
    rfl
  · exact ((c4_dispatch_exactly_once db0 (.resolves none) 1
      "a@x.com").2 mailA (by decide)).2.mpr (Or.inl ⟨none, rfl, rfl⟩)

/-- C5: hydration yields nothing exactly when the stored template or the
stored parameters are absent, and when both are present it yields the
fully hydrated subject/body/reply-to document — never a partial one. -/
theorem c5_hydration_all_or_nothing (db : DB) (campaignId : Nat) :
    (getHydratedMessage db campaignId = none ↔
      getFilledTemplate db campaignId = none ∨
        getParams db campaignId = none) ∧
    (∀ t p, getFilledTemplate db campaignId = some t →
      getParams db campaignId = some p →
      getHydratedMessage db campaignId =
        some { body := renderTemplate t.body p
               subject := renderTemplate t.subject p
               replyTo := jsOrNull t.replyTo }) := by
  cases ht : getFilledTemplate db campaignId with
  | none =>
    cases hp : getParams db campaignId <;>
      simp [getHydratedMessage, ht, hp]
  | some t =>
    cases hp : getParams db campaignId with
    | none => simp [getHydratedMessage, ht, hp]
    | some p =>
      constructor
      · simp [getHydratedMessage, ht, hp]
      · intro t' p' ht' hp'
        obtain rfl : t = t' := Option.some.inj ht'
        obtain rfl : p = p' := Option.some.inj hp'
        simp [getHydratedMessage, ht, hp]

/-- C5 witness: on `db0` both template and parameters exist, and the
hydrated document carries all three fields. -/
theorem c5_witness :
    getHydratedMessage db0 1 =
      some { body := "Hi Alex", subject := "S", replyTo := none } := by
  have h := (c5_hydration_all_or_nothing db0 1).2 tmpl0 msgA.params
    (by decide) (by decide)
  rw [h]
  decide

/-- C6: `findCampaign` yields the campaign exactly when that id's stored
campaign is owned by the user and has the Email channel; in every other
case (wrong owner, wrong channel, or no such id) it yields `none`, the
same answer for all three, so the caller cannot tell them apart. -/
theorem c6_findCampaign_owner_and_channel (db : DB) (campaignId userId : Nat)
    (huniq : ∀ c₁ ∈ db.campaigns, ∀ c₂ ∈ db.campaigns,
      c₁.id = c₂.id → c₁ = c₂) :
    (∀ c : Campaign,
      findCampaign db campaignId userId = some c ↔
        c ∈ db.campaigns ∧ c.id = campaignId ∧ c.userId = userId ∧
          c.channelType = ChannelType.Email) ∧
    (findCampaign db campaignId userId = none ↔
      ∀ c ∈ db.campaigns,
        ¬(c.id = campaignId ∧ c.userId = userId ∧
          c.channelType = ChannelType.Email)) := by
  constructor
  · intro c
    constructor
    · intro h
      have hmem := List.mem_of_find?_eq_some h
      have hp := List.find?_some h
      rw [decide_eq_true_eq] at hp
      exact ⟨hmem, hp⟩
    · rintro ⟨hmem, hid, huid, hch⟩
      cases hf : findCampaign db campaignId userId with
      | none =>
        unfold findCampaign at hf
        rw [List.find?_eq_none] at hf
        have := hf c hmem
        simp [hid, huid, hch] at this
      | some c' =>
        have hmem' := List.mem_of_find?_eq_some hf
        have hp' := List.find?_some hf
        rw [decide_eq_true_eq] at hp'
        have hcc : c' = c := huniq c' hmem' c hmem (hp'.1.trans hid.symm)
        rw [hcc]
  · unfold findCampaign
    rw [List.find?_eq_none]
    constructor
    · intro h c hmem hc
      exact absurd (decide_eq_true hc) (h c hmem)
    · intro h c hmem
      simpa using h c hmem

/-- C6 witness: `db0` holds campaign 1 owned by user 3 with the Email
channel; `findCampaign` returns it for (1, 3) and nothing for a wrong
owner. -/
theorem c6_witness :
    findCampaign db0 1 3 =
      some { id := 1, userId := 3, channelType := .Email, credName := none } ∧
    findCampaign db0 1 4 = none := by
  have h := c6_findCampaign_owner_and_channel db0 1 3 (by decide)
  have h4 := c6_findCampaign_owner_and_channel db0 1 4 (by decide)
  refine ⟨(h.1 _).mpr ⟨by decide, rfl, rfl, rfl⟩, (h4.2).mpr ?_⟩
  decide

/-- C7 amended: composition reads the parameters of the first stored
message row of the campaign, so dispatches to any two recipients of the
same campaign render the same subject, body and reply-to; the recipient
argument only sets the mail's destination list. -/
theorem c7_amended_same_rendering_for_all_recipients (db : DB)
    (campaignId : Nat) (r₁ r₂ : String) :
    ((getCampaignMessage db campaignId r₁).map
        (fun m => (m.subject, m.body, m.replyTo)) =
      (getCampaignMessage db campaignId r₂).map
        (fun m => (m.subject, m.body, m.replyTo))) ∧
    (∀ m, getCampaignMessage db campaignId r₁ = some m →
      m.recipients = [r₁]) := by
  cases h : getHydratedMessage db campaignId <;>
    simp [getCampaignMessage, h]

/-- C7 counterexample: in `db0`, recipient `b@x.com` has its own stored
parameters (`name = Bo`), yet composing for `b@x.com` renders with the
first row's parameters (`name = Alex`) — not with that recipient's own
parameter set, as the claim states. -/
theorem c7_counterexample :
    (getCampaignMessage db0 1 "b@x.com").map (fun m => m.body) =
      some "Hi Alex" ∧
    (paramsForRecipient db0 1 "b@x.com").map
        (fun p => renderTemplate tmpl0.body p) = some "Hi Bo" ∧
    ¬((getCampaignMessage db0 1 "b@x.com").map (fun m => m.body) =
      (paramsForRecipient db0 1 "b@x.com").map
        (fun p => renderTemplate tmpl0.body p)) := by
  refine ⟨by decide, by decide, by decide⟩

/-- C7 witness: applying the amended statement at `db0`, the mail composed
for `a@x.com` is addressed to exactly that recipient. -/
theorem c7_witness :
    ({ recipients := ["a@x.com"], body := "Hi Alex", subject := "S"
       replyTo := none } : MailToSend).recipients = ["a@x.com"] :=
  (c7_amended_same_rendering_for_all_recipients db0 1 "a@x.com" "x").2 _
    (by decide)

/-- Any error of `testHydration` is the hydration failure. -/
theorem testHydration_error (samples : List CSVParams)
    (body subject : TemplateText) (e : SvcError)
    (h : testHydration samples body subject = .error e) :
    e = .hydrationFailure := by
  unfold testHydration at h
  split at h
  · cases h
  · cases h
    rfl

/-- C8 amended: the protected preview handler raises the header-mismatch
error exactly when the first row's column set fails to cover the four
required protected columns; a column set that covers them passes the
header check even if it carries additional columns (acceptance further
requires trial hydration and the delete to succeed). -/
theorem c8_protected_header_check_is_cover (template : EmailTemplate)
    (campaignId : Nat) (destroyOk : Bool) (entry : CSVParams)
    (rest : List CSVParams) (tx : TxState) :
    (uploadProtectedCompleteOnPreview template campaignId destroyOk
        (entry :: rest) tx).err = some .headerMismatch ↔
      PROTECTED_CSV_HEADERS.all
        (fun k => decide (k ∈ paramKeys entry)) = false := by
  cases hall : PROTECTED_CSV_HEADERS.all
      (fun k => decide (k ∈ paramKeys entry)) with
  | false =>
    simp [uploadProtectedCompleteOnPreview, checkTemplateKeysMatch, hall]
  | true =>
    cases ht : testHydration [entry] template.body template.subject with
    | error e =>
      have he := testHydration_error _ _ _ _ ht
      subst he
      simp [uploadProtectedCompleteOnPreview, checkTemplateKeysMatch,
        hall, ht]
    | ok v =>
      cases v
      cases destroyOk <;>
        simp [uploadProtectedCompleteOnPreview, checkTemplateKeysMatch,
          hall, ht]

/-- C8 counterexample: a protected CSV whose row carries the four required
columns plus an `extra` column — so its header set is not exactly the
required four — is nevertheless accepted: the handler throws no error and
performs the delete of the campaign's protected rows. -/
theorem c8_counterexample :
    ("extra" ∈ paramKeys entryExtra) ∧
    ("extra" ∉ PROTECTED_CSV_HEADERS) ∧
    (uploadProtectedCompleteOnPreview tmplP 1 true [entryExtra] tx0).err =
      none ∧
    (uploadProtectedCompleteOnPreview tmplP 1 true [entryExtra]
      tx0).tx.db.protectedMessages = [] := by
  refine ⟨by decide, by decide, by decide, by decide⟩

/-- C8 witness: a protected CSV missing the `payload`, `passwordhash` and
`id` columns is rejected with the header-mismatch error. -/
theorem c8_witness :
    (uploadProtectedCompleteOnPreview tmplP 1 true [[("recipient", "a")]]
      tx0).err = some .headerMismatch :=
  (c8_protected_header_check_is_cover tmplP 1 true [("recipient", "a")] []
    tx0).mpr (by decide)

end EmailService
